import Mathlib

/-!
# CityFix report store — shallow embedding

Embedding of the report/issue data-synchronization layer of the CityFix
repository (`src/contexts/ReportContext.tsx`, `src/lib/issues.ts`,
`src/lib/storage.ts`, `src/lib/supabase.ts`).

Modelling conventions:

* The TypeScript enumerations (`ReportCategory`, `ReportStatus`,
  `ReportSeverity`, `IssueCategory`, `IssueStatus`, `IssuePriority`) are
  string-literal union types, and the fetch path casts remote strings into
  local types verbatim (`issue.category as ReportCategory`), so the
  corresponding fields are embedded as `String` and the enumerations as
  lists of the allowed strings.
* Latitude/longitude are carried through every modelled operation unchanged
  and never computed with, so they are embedded as `Int` placeholders.
* Remote calls are passed in as explicit arguments (`Except String α` for a
  call already made, or a function for a call whose payload the operation
  builds), so an operation's definition shows exactly what payload is sent
  and what happens on remote success or failure.
* The remote schema (`supabase.ts`) declares `images: string[]` and
  `votes: number` as always present, so the JavaScript null-guards
  `issue.images || []` and `issue.votes || 0` are the identity on the values
  the schema admits (a non-null array is always truthy, and `0 || 0 = 0`);
  they are embedded as the identity.
-/

namespace CityFix

/-- Reference to a user: `{ id, name }` pairs used for `reportedBy` /
`assignedTo` in `ReportContext.tsx`. -/
structure UserRef where
  id : String
  name : String
deriving DecidableEq

/-- Local coordinate pair (`location.coordinates` of a `Report`). -/
structure Coordinates where
  lat : Int
  lng : Int
deriving DecidableEq

/-- Local report location: address plus coordinates. -/
structure ReportLocation where
  address : String
  coordinates : Coordinates
deriving DecidableEq

/-- Local comment shape (`ReportComment` in `ReportContext.tsx`), with the
nested `user` object flattened into its three fields. -/
structure ReportComment where
  id : String
  text : String
  createdAt : String
  userId : String
  userName : String
  userRole : String
deriving DecidableEq

/-- Local report record (`Report` in `ReportContext.tsx`). -/
structure Report where
  id : String
  title : String
  description : String
  category : String
  location : ReportLocation
  images : List String
  status : String
  severity : String
  reportedBy : UserRef
  createdAt : String
  updatedAt : String
  upvotes : Int
  upvotedBy : List String
  comments : List ReportComment
  assignedTo : Option UserRef
deriving DecidableEq

/-- Remote location shape (`location` of an `Issue` in `supabase.ts`). -/
structure IssueLocation where
  latitude : Int
  longitude : Int
  address : String
deriving DecidableEq

/-- Remote issue record (`Issue` in `supabase.ts`). -/
structure Issue where
  id : String
  title : String
  description : String
  status : String
  priority : String
  category : String
  location : IssueLocation
  images : List String
  created_at : String
  updated_at : String
  user_id : String
  assigned_to : Option String
  votes : Int
deriving DecidableEq

/-- The eight local category strings of the `ReportCategory` union type. -/
def reportCategories : List String :=
  ["pothole", "streetlight", "garbage", "graffiti",
   "road_damage", "flooding", "sign_damage", "other"]

/-- The three local severity strings of the `ReportSeverity` union type. -/
def reportSeverities : List String := ["low", "medium", "high"]

/-- The five local status strings of the `ReportStatus` union type. -/
def reportStatuses : List String :=
  ["reported", "under_review", "in_progress", "resolved", "closed"]

/-- The four remote status strings of the `IssueStatus` union type in
`supabase.ts` (note: `under_review` is absent). -/
def issueStatuses : List String :=
  ["reported", "in_progress", "resolved", "closed"]

/-- `reportCategoryToIssueCategory` (ReportContext.tsx lines 231–249):
local category vocabulary to remote category vocabulary, with the
`default` branch returning `other`. -/
def reportCategoryToIssueCategory (category : String) : String :=
  match category with
  | "pothole" => "road"
  | "road_damage" => "road"
  | "streetlight" => "electricity"
  | "garbage" => "waste"
  | "flooding" => "waste"
  | "sign_damage" => "waste"
  | "graffiti" => "other"
  | "other" => "other"
  | _ => "other"

/-- `reportSeverityToPriority` (ReportContext.tsx lines 251–258): local
severity to remote priority, with the `default` branch returning `medium`. -/
def reportSeverityToPriority (severity : String) : String :=
  match severity with
  | "low" => "low"
  | "medium" => "medium"
  | "high" => "high"
  | _ => "medium"

/-- Body of the `issues.map` inside `fetchReports` (ReportContext.tsx lines
180–208): reshapes one remote issue into a local report.  Category, status
and priority strings are cast verbatim (`as ReportCategory` etc.), the
reporter name is the `Anonymous` placeholder, and `upvotedBy` and
`comments` are set to the empty list (the source marks both with a
"We'll implement this later" comment). -/
def issueToReport (issue : Issue) : Report :=
  { id := issue.id
    title := issue.title
    description := issue.description
    category := issue.category
    location :=
      { address := issue.location.address
        coordinates := { lat := issue.location.latitude, lng := issue.location.longitude } }
    images := issue.images
    status := issue.status
    severity := issue.priority
    reportedBy := { id := issue.user_id, name := "Anonymous" }
    createdAt := issue.created_at
    updatedAt := issue.updated_at
    upvotes := issue.votes
    upvotedBy := []
    comments := []
    assignedTo := issue.assigned_to.map (fun a => { id := a, name := "Anonymous" }) }

/-- `fetchReports` (ReportContext.tsx lines 177–215): the full fetch that
rebuilds the local collection from the remote issue list; it is also what
each subscription notification re-runs. -/
def fetchReports (issues : List Issue) : List Report :=
  issues.map issueToReport

/-- The argument of `addReport`: a report without id, timestamps, upvotes,
`upvotedBy` and comments. -/
structure ReportDraft where
  title : String
  description : String
  category : String
  location : ReportLocation
  images : List String
  status : String
  severity : String
  reportedBy : UserRef
  assignedTo : Option UserRef
deriving DecidableEq

/-- Payload accepted by the remote `createIssue` call. -/
structure IssueInsert where
  title : String
  description : String
  category : String
  status : String
  priority : String
  location : IssueLocation
  images : List String
  user_id : String
deriving DecidableEq

/-- The `supabaseIssue` payload built at the top of `addReport`
(ReportContext.tsx lines 261–274), including the
`report.status === 'under_review' ? 'reported' : report.status` coercion. -/
def addReportPayload (report : ReportDraft) : IssueInsert :=
  { title := report.title
    description := report.description
    category := reportCategoryToIssueCategory report.category
    status := if report.status = "under_review" then "reported" else report.status
    priority := reportSeverityToPriority report.severity
    location :=
      { latitude := report.location.coordinates.lat
        longitude := report.location.coordinates.lng
        address := report.location.address }
    images := report.images
    user_id := report.reportedBy.id }

/-- The `newReport` local record built in `addReport` from the created issue
returned by the remote call (ReportContext.tsx lines 278–303). -/
def newReportFromIssue (report : ReportDraft) (createdIssue : Issue) : Report :=
  { id := createdIssue.id
    title := createdIssue.title
    description := createdIssue.description
    category := report.category
    location :=
      { address := createdIssue.location.address
        coordinates :=
          { lat := createdIssue.location.latitude, lng := createdIssue.location.longitude } }
    images := createdIssue.images
    status := createdIssue.status
    severity := report.severity
    reportedBy := report.reportedBy
    createdAt := createdIssue.created_at
    updatedAt := createdIssue.updated_at
    upvotes := createdIssue.votes
    upvotedBy := []
    comments := []
    assignedTo := createdIssue.assigned_to.map (fun a => { id := a, name := "Anonymous" }) }

/-- `addReport` (ReportContext.tsx lines 260–307): builds the remote
payload, awaits the remote create, and only on success appends the new
local report; a remote error propagates (there is no try/catch) and the
collection is untouched. -/
def addReport (reports : List Report) (draft : ReportDraft)
    (createIssue : IssueInsert → Except String Issue) :
    List Report × Except String Report :=
  match createIssue (addReportPayload draft) with
  | .error e => (reports, .error e)
  | .ok createdIssue =>
      (reports ++ [newReportFromIssue draft createdIssue],
       .ok (newReportFromIssue draft createdIssue))

/-- The argument of `updateReport`: `Partial<Report>` restricted to the
seven fields the function recognizes (title, description, category,
severity, location, images, status). -/
structure ReportUpdates where
  title : Option String
  description : Option String
  category : Option String
  severity : Option String
  location : Option ReportLocation
  images : Option (List String)
  status : Option String
deriving DecidableEq

/-- Payload sent to the remote `updateIssue` call (`supabaseUpdates`). -/
structure IssueUpdates where
  title : Option String
  description : Option String
  category : Option String
  priority : Option String
  location : Option IssueLocation
  images : Option (List String)
  status : Option String
deriving DecidableEq

/-- JavaScript truthiness of an optional string: an absent field and the
empty string are falsy, every other string is truthy. -/
def truthyString (s : Option String) : Bool :=
  match s with
  | none => false
  | some v => v != ""

/-- The `supabaseUpdates` payload built in `updateReport` (ReportContext.tsx
lines 311–324).  Every guard is a JavaScript truthiness test
(`if (updates.title) ...`): a present empty string is skipped, while a
present object or array (location, images) is always truthy.  The status
field is forwarded verbatim — unlike `addReport`, there is no
`under_review` coercion here. -/
def updateReportPayload (updates : ReportUpdates) : IssueUpdates :=
  { title := if truthyString updates.title then updates.title else none
    description := if truthyString updates.description then updates.description else none
    category :=
      match updates.category with
      | some c => if c != "" then some (reportCategoryToIssueCategory c) else none
      | none => none
    priority :=
      match updates.severity with
      | some s => if s != "" then some (reportSeverityToPriority s) else none
      | none => none
    location :=
      updates.location.map (fun l =>
        { latitude := l.coordinates.lat
          longitude := l.coordinates.lng
          address := l.address })
    images := updates.images
    status := if truthyString updates.status then updates.status else none }

/-- The local merge `{ ...report, ...updates, updatedAt: now }` performed by
`updateReport` on the record whose id matches: every field present in
`updates` overrides the old value (falsy values included — the spread does
not test truthiness), and `updatedAt` is refreshed. -/
def mergeUpdates (report : Report) (updates : ReportUpdates) (now : String) : Report :=
  { report with
    title := updates.title.getD report.title
    description := updates.description.getD report.description
    category := updates.category.getD report.category
    severity := updates.severity.getD report.severity
    location := updates.location.getD report.location
    images := updates.images.getD report.images
    status := updates.status.getD report.status
    updatedAt := now }

/-- `updateReport` (ReportContext.tsx lines 309–333): sends the filtered
payload to the remote update, and only after it succeeds merges `updates`
into the matching local record; a remote error propagates unchanged. -/
def updateReport (reports : List Report) (id : String) (updates : ReportUpdates)
    (now : String) (updateIssue : IssueUpdates → Except String Unit) :
    List Report × Except String Unit :=
  match updateIssue (updateReportPayload updates) with
  | .error e => (reports, .error e)
  | .ok _ =>
      (reports.map (fun report =>
        if report.id = id then mergeUpdates report updates now else report), .ok ())

/-- `deleteReport` (ReportContext.tsx lines 335–338): awaits the remote
delete, then filters the record out of the local collection; a remote error
propagates unchanged and the collection is untouched. -/
def deleteReport (reports : List Report) (id : String)
    (deleteIssue : Except String Unit) : List Report × Except String Unit :=
  match deleteIssue with
  | .error e => (reports, .error e)
  | .ok _ => (reports.filter (fun report => report.id != id), .ok ())

/-- Remote comment row as returned by `getComments` (issues.ts lines
103–115), with the joined `user` profile flattened; the profile role may be
absent. -/
structure RemoteComment where
  id : String
  content : String
  created_at : String
  userId : String
  userName : String
  userRole : Option String
deriving DecidableEq

/-- JavaScript `role || 'citizen'`: an absent or empty role string falls
back to `citizen`. -/
def roleOrCitizen (role : Option String) : String :=
  match role with
  | none => "citizen"
  | some r => if r = "" then "citizen" else r

/-- Body of the `comments.map` inside `getReportById` (ReportContext.tsx
lines 349–358): reshapes one remote comment into the local comment shape. -/
def transformComment (comment : RemoteComment) : ReportComment :=
  { id := comment.id
    text := comment.content
    createdAt := comment.created_at
    userId := comment.userId
    userName := comment.userName
    userRole := roleOrCitizen comment.userRole }

/-- `getReportById` (ReportContext.tsx lines 340–369): local lookup first
(`undefined` when absent, modelled as `none`); when found, the remote
comment fetch replaces the report's comments on success, and on failure the
error is caught and the local report is returned unchanged. -/
def getReportById (reports : List Report) (id : String)
    (getComments : Except String (List RemoteComment)) : Option Report :=
  match reports.find? (fun report => report.id == id) with
  | none => none
  | some report =>
    match getComments with
    | .ok comments => some { report with comments := comments.map transformComment }
    | .error _ => some report

/-- Body of the `reports.map` inside `upvoteReport` (ReportContext.tsx
lines 378–395): on the matching record, a user already in `upvotedBy` is a
no-op; otherwise increment `upvotes`, append the user and refresh
`updatedAt`. -/
def upvoteReportLocal (id userId now : String) (report : Report) : Report :=
  if report.id = id then
    if userId ∈ report.upvotedBy then report
    else
      { report with
        upvotes := report.upvotes + 1
        upvotedBy := report.upvotedBy ++ [userId]
        updatedAt := now }
  else report

/-- `upvoteReport` (ReportContext.tsx lines 371–396): the remote vote call
is wrapped in try/catch whose catch only logs, so the local bookkeeping
runs identically whether the remote call failed or succeeded, and no error
is ever returned to the caller (the result type has no error channel). -/
def upvoteReport (reports : List Report) (id userId now : String)
    (voteOnIssue : Except String Unit) : List Report :=
  match voteOnIssue with
  | .error _ => reports.map (upvoteReportLocal id userId now)
  | .ok _ => reports.map (upvoteReportLocal id userId now)

/-- The argument of `addComment`: a comment without id and createdAt. -/
structure CommentDraft where
  text : String
  userId : String
  userName : String
  userRole : String
deriving DecidableEq

/-- The fields of the row returned by the remote `createComment` call that
`addComment` reads back (authoritative id and creation time). -/
structure CreatedComment where
  id : String
  created_at : String
deriving DecidableEq

/-- `addComment` (ReportContext.tsx lines 398–429): persists the comment
remotely, and only on success appends the resulting comment to the matching
local report and refreshes `updatedAt`; the catch block rethrows, so a
remote error propagates unchanged and the collection is untouched. -/
def addComment (reports : List Report) (reportId : String)
    (commentData : CommentDraft) (now : String)
    (createComment : Except String CreatedComment) :
    List Report × Except String Unit :=
  match createComment with
  | .error e => (reports, .error e)
  | .ok comment =>
      (reports.map (fun report =>
        if report.id = reportId then
          { report with
            comments := report.comments ++
              [{ id := comment.id
                 text := commentData.text
                 createdAt := comment.created_at
                 userId := commentData.userId
                 userName := commentData.userName
                 userRole := commentData.userRole }]
            updatedAt := now }
        else report), .ok ())

/-- A file handed to `uploadImage`: name, MIME type and size in bytes. -/
structure UploadFile where
  name : String
  mimeType : String
  size : Nat
deriving DecidableEq

/-- The 1.5MB limit of `uploadImage`: `1.5 * 1024 * 1024` bytes. -/
def maxImageSize : Nat := 1572864

/-- Helper for `strStartsWith`: the first list is an initial run of the
second. -/
def strStartsWithAux : List Char → List Char → Bool
  | [], _ => true
  | _ :: _, [] => false
  | a :: as, b :: bs => a == b && strStartsWithAux as bs

/-- Executable model of JavaScript `s.startsWith(p)`, by recursion on the
character lists. -/
def strStartsWith (s p : String) : Bool := strStartsWithAux p.data s.data

/-- `uploadImage` (storage.ts): validates the MIME type and then the size
before any network call, throwing a validation error; only a file passing
both checks reaches the remote storage upload (upload, public-URL lookup
and the surrounding catch-and-rethrow are folded into the `storageUpload`
argument, which is only consulted after both checks pass). -/
def uploadImage (file : UploadFile)
    (storageUpload : UploadFile → Except String String) : Except String String :=
  if ¬ strStartsWith file.mimeType "image/" then
    .error "Invalid file type. Please upload an image file."
  else if file.size > maxImageSize then
    .error "File size exceeds 1.5MB limit."
  else storageUpload file

/-- The vote-count invariant from the spec's data model: no duplicate voter
ids, and the counter equals the number of voters. -/
def voteInvariant (report : Report) : Prop :=
  report.upvotedBy.Nodup ∧ report.upvotes = report.upvotedBy.length

instance (report : Report) : Decidable (voteInvariant report) := by
  unfold voteInvariant; infer_instance

/-- The remote create contract (§6 of the spec): the stored issue returned
by `createIssue` is the payload augmented with a generated id, timestamps,
an empty assignment and a vote count. -/
def storedIssue (payload : IssueInsert) (id created_at updated_at : String)
    (assigned_to : Option String) (votes : Int) : Issue :=
  { id := id
    title := payload.title
    description := payload.description
    status := payload.status
    priority := payload.priority
    category := payload.category
    location := payload.location
    images := payload.images
    created_at := created_at
    updated_at := updated_at
    user_id := payload.user_id
    assigned_to := assigned_to
    votes := votes }

/-! ## Concrete sample data, used to instantiate the theorems below -/

/-- A sample user. -/
def sampleUser : UserRef := { id := "u1", name := "Jane Smith" }

/-- A sample location. -/
def sampleLocation : ReportLocation :=
  { address := "456 Oak Ave, Anytown", coordinates := { lat := 40, lng := -74 } }

/-- A sample draft with the uniquely-mapping category `streetlight` and the
local-only status `under_review`. -/
def sampleDraft : ReportDraft :=
  { title := "Broken streetlight on Oak Avenue"
    description := "Streetlight is not working."
    category := "streetlight"
    location := sampleLocation
    images := []
    status := "under_review"
    severity := "medium"
    reportedBy := sampleUser
    assignedTo := none }

/-- A sample local report with no upvotes yet. -/
def sampleReport : Report :=
  { id := "r1"
    title := "Broken streetlight on Oak Avenue"
    description := "Streetlight is not working."
    category := "streetlight"
    location := sampleLocation
    images := []
    status := "reported"
    severity := "medium"
    reportedBy := sampleUser
    createdAt := "2024-01-02T00:00:00Z"
    updatedAt := "2024-01-02T00:00:00Z"
    upvotes := 0
    upvotedBy := []
    comments := []
    assignedTo := none }

/-- A sample remote issue carrying a nonzero vote count. -/
def votedIssue : Issue :=
  { id := "i5"
    title := "Garbage pileup in alley"
    description := "Large amount of garbage."
    status := "reported"
    priority := "low"
    category := "waste"
    location := { latitude := 40, longitude := -74, address := "789 Market St" }
    images := []
    created_at := "2024-01-03T00:00:00Z"
    updated_at := "2024-01-03T00:00:00Z"
    user_id := "u3"
    assigned_to := none
    votes := 5 }

/-- A sample comment draft. -/
def sampleCommentDraft : CommentDraft :=
  { text := "test", userId := "u1", userName := "Jane Smith", userRole := "citizen" }

/-- An update whose only present field is the status `under_review`. -/
def underReviewUpdate : ReportUpdates :=
  { title := none, description := none, category := none, severity := none,
    location := none, images := none, status := some "under_review" }

/-- An update whose present fields are the falsy (empty) title and
description. -/
def emptyStringUpdates : ReportUpdates :=
  { title := some "", description := some "", category := none, severity := none,
    location := none, images := none, status := none }

/-- A non-image file. -/
def textFile : UploadFile := { name := "notes.txt", mimeType := "text/plain", size := 10 }

/-- An image file one byte over the 1.5MB limit. -/
def hugeImage : UploadFile := { name := "big.png", mimeType := "image/png", size := 1572865 }

/-- An image file exactly at the 1.5MB limit. -/
def okImage : UploadFile := { name := "ok.png", mimeType := "image/png", size := 1572864 }

/-! ## Helper lemmas -/

/-- The two branches of `upvoteReport`'s try/catch run the same local map. -/
lemma upvoteReport_eq_map (reports : List Report) (id userId now : String)
    (remote : Except String Unit) :
    upvoteReport reports id userId now remote
      = reports.map (upvoteReportLocal id userId now) := by
  cases remote <;> rfl

/-- Applying the local upvote step twice with the same user is the same as
applying it once. -/
lemma upvoteReportLocal_idem (id userId t₁ t₂ : String) (report : Report) :
    upvoteReportLocal id userId t₂ (upvoteReportLocal id userId t₁ report)
      = upvoteReportLocal id userId t₁ report := by
  by_cases hid : report.id = id
  · by_cases hmem : userId ∈ report.upvotedBy
    · simp [upvoteReportLocal, hid, hmem]
    · simp [upvoteReportLocal, hid, hmem]
  · simp [upvoteReportLocal, hid]

/-- The local upvote step preserves the vote-count invariant. -/
lemma voteInvariant_upvoteReportLocal (id userId now : String) (report : Report)
    (h : voteInvariant report) :
    voteInvariant (upvoteReportLocal id userId now report) := by
  obtain ⟨hnd, hlen⟩ := h
  unfold upvoteReportLocal
  split
  · split
    · exact ⟨hnd, hlen⟩
    · rename_i hmem
      constructor
      · simp [List.nodup_append, hnd, hmem]
      · simp [hlen]
  · exact ⟨hnd, hlen⟩

/-! ## Claims -/

/-- C1: evaluation at the failing input.  `addReport`'s payload does coerce
the local status `under_review` to `reported`, but `updateReport`'s payload
forwards a present `under_review` status verbatim to the remote store —
there is no coercion on the update path — even though `under_review` is not
in the remote `IssueStatus` vocabulary declared in `supabase.ts`. -/
theorem c1_updateReport_forwards_under_review :
    (addReportPayload sampleDraft).status = "reported" ∧
    sampleDraft.status = "under_review" ∧
    (updateReportPayload underReviewUpdate).status = some "under_review" ∧
    "under_review" ∉ issueStatuses :=
  ⟨rfl, rfl, rfl, by decide⟩

/-- C2 counterexample: a report created with the uniquely-mapping local
category `streetlight` is stored remotely as `electricity`, and the full
fetch that feeds the local collection casts the remote category verbatim,
so the refetched record carries category `electricity`, not the original
`streetlight`. -/
theorem c2_roundtrip_counterexample :
    sampleDraft.category = "streetlight" ∧
    (fetchReports [storedIssue (addReportPayload sampleDraft) "i1" "t0" "t0" none 0]).map
        Report.category = ["electricity"] :=
  ⟨rfl, rfl⟩

/-- C2 (amended): the fetch path applies no reverse category mapping — the
refetched report's category is the remote category, i.e. the forward image
of the original local category under `reportCategoryToIssueCategory`, so a
category round-trips exactly when it equals its own image (among the eight
local categories, only `other`); severity, by contrast, round-trips
losslessly for every severity value. -/
theorem c2_roundtrip_amended (draft : ReportDraft) (id c u : String)
    (assigned : Option String) (votes : Int) :
    ((issueToReport (storedIssue (addReportPayload draft) id c u assigned votes)).category
        = reportCategoryToIssueCategory draft.category) ∧
    (draft.severity ∈ reportSeverities →
      (issueToReport (storedIssue (addReportPayload draft) id c u assigned votes)).severity
        = draft.severity) ∧
    (∀ cat ∈ reportCategories, (reportCategoryToIssueCategory cat = cat ↔ cat = "other")) := by
  refine ⟨rfl, ?_, by decide⟩
  intro h
  simp only [reportSeverities, List.mem_cons, List.not_mem_nil, or_false] at h
  rcases h with h | h | h <;>
    simp [issueToReport, storedIssue, addReportPayload, reportSeverityToPriority, h]

/-- C2 witness: the amended round-trip facts evaluated on the sample
draft. -/
theorem c2_roundtrip_amended_witness :
    sampleDraft.severity ∈ reportSeverities ∧
    (issueToReport (storedIssue (addReportPayload sampleDraft) "i1" "t0" "t1" none 0)).severity
      = sampleDraft.severity ∧
    "other" ∈ reportCategories ∧
    reportCategoryToIssueCategory "other" = "other" :=
  ⟨by decide,
   (c2_roundtrip_amended sampleDraft "i1" "t0" "t1" none 0).2.1 (by decide),
   by decide,
   ((c2_roundtrip_amended sampleDraft "i1" "t0" "t1" none 0).2.2 "other" (by decide)).mpr rfl⟩

/-- C3 counterexample: the fetch rebuilds the local report of a remote
issue carrying 5 votes with `upvotes = 5` but `upvotedBy = []`, so the
invariant `upvotes = |upvotedBy|` fails after the initial fetch (and after
every subscription-triggered wholesale refetch, which runs the same
code). -/
theorem c3_fetch_breaks_invariant :
    fetchReports [votedIssue] = [issueToReport votedIssue] ∧
    (issueToReport votedIssue).upvotes = 5 ∧
    (issueToReport votedIssue).upvotedBy = [] ∧
    ¬ voteInvariant (issueToReport votedIssue) :=
  ⟨rfl, rfl, rfl, by decide⟩

/-- C3 (amended): `upvoteReport` does preserve the vote-count invariant (no
duplicate voter ids, counter equals voter count) on every report of the
collection, but the fetch path always rebuilds `upvotedBy` as the empty
list while keeping the remote vote count, so a fetched report satisfies
the invariant exactly when its remote vote count is zero. -/
theorem c3_invariant_amended (report : Report) (id userId now : String) (issue : Issue)
    (hinv : voteInvariant report) :
    voteInvariant (upvoteReportLocal id userId now report) ∧
    (voteInvariant (issueToReport issue) ↔ issue.votes = 0) ∧
    (∀ (reports : List Report) (remote : Except String Unit),
      upvoteReport reports id userId now remote
        = reports.map (upvoteReportLocal id userId now)) := by
  refine ⟨voteInvariant_upvoteReportLocal id userId now report hinv, ?_,
    fun reports remote => upvoteReport_eq_map reports id userId now remote⟩
  simp [voteInvariant, issueToReport]

/-- C3 witness: invariant preservation evaluated on the sample report, and
the fetched-invariant characterization on the 5-vote issue. -/
theorem c3_invariant_amended_witness :
    voteInvariant sampleReport ∧
    voteInvariant (upvoteReportLocal "r1" "u2" "t1" sampleReport) ∧
    (voteInvariant (issueToReport votedIssue) ↔ votedIssue.votes = 0) :=
  ⟨by decide,
   (c3_invariant_amended sampleReport "r1" "u2" "t1" votedIssue (by decide)).1,
   (c3_invariant_amended sampleReport "r1" "u2" "t1" votedIssue (by decide)).2.1⟩

/-- C4: for `addReport`, `deleteReport` and `addComment`, a remote failure
propagates to the caller unchanged and the local collection is returned
exactly as it was — no partial insert, no local removal, no appended
comment; the local mutation only happens in the remote-success branch. -/
theorem c4_remote_failure_atomic (reports : List Report) (draft : ReportDraft)
    (id reportId now e₁ e₂ e₃ : String) (commentData : CommentDraft)
    (createIssue : IssueInsert → Except String Issue)
    (hc : createIssue (addReportPayload draft) = .error e₁) :
    addReport reports draft createIssue = (reports, .error e₁) ∧
    deleteReport reports id (.error e₂) = (reports, .error e₂) ∧
    addComment reports reportId commentData now (.error e₃) = (reports, .error e₃) := by
  refine ⟨?_, rfl, rfl⟩
  unfold addReport
  rw [hc]

/-- C4 witness: the three remote-failure cases evaluated on the sample
collection. -/
theorem c4_remote_failure_atomic_witness :
    addReport [sampleReport] sampleDraft (fun _ => .error "down")
      = ([sampleReport], .error "down") ∧
    deleteReport [sampleReport] "r1" (.error "down") = ([sampleReport], .error "down") ∧
    addComment [sampleReport] "r1" sampleCommentDraft "t1" (.error "down")
      = ([sampleReport], .error "down") :=
  c4_remote_failure_atomic [sampleReport] sampleDraft "r1" "r1" "t1" "down" "down" "down"
    sampleCommentDraft (fun _ => .error "down") rfl

/-- C5: calling `upvoteReport` twice with the same report id and user
leaves the collection after the second call equal to the collection after
the first; on the matching report, a user already in `upvotedBy` makes the
local update a no-op, and otherwise `upvotes` grows by exactly one, the
user is appended to `upvotedBy`, and `updatedAt` is refreshed. -/
theorem c5_upvote_idempotent (reports : List Report) (id userId t₁ t₂ : String)
    (r₁ r₂ : Except String Unit) (report : Report) (hid : report.id = id) :
    upvoteReport (upvoteReport reports id userId t₁ r₁) id userId t₂ r₂
      = upvoteReport reports id userId t₁ r₁ ∧
    (userId ∈ report.upvotedBy → upvoteReportLocal id userId t₁ report = report) ∧
    (userId ∉ report.upvotedBy →
      (upvoteReportLocal id userId t₁ report).upvotes = report.upvotes + 1 ∧
      (upvoteReportLocal id userId t₁ report).upvotedBy = report.upvotedBy ++ [userId] ∧
      (upvoteReportLocal id userId t₁ report).updatedAt = t₁) := by
  refine ⟨?_, fun hmem => ?_, fun hmem => ?_⟩
  · rw [upvoteReport_eq_map, upvoteReport_eq_map, List.map_map]
    have hcomp : upvoteReportLocal id userId t₂ ∘ upvoteReportLocal id userId t₁
        = upvoteReportLocal id userId t₁ :=
      funext fun r => upvoteReportLocal_idem id userId t₁ t₂ r
    rw [hcomp]
  · simp [upvoteReportLocal, hid, hmem]
  · refine ⟨?_, ?_, ?_⟩ <;> simp [upvoteReportLocal, hid, hmem]

/-- C5 witness: double upvote on the sample collection, and the local
bookkeeping for a fresh voter. -/
theorem c5_upvote_idempotent_witness :
    sampleReport.id = "r1" ∧
    upvoteReport (upvoteReport [sampleReport] "r1" "u9" "t1" (.ok ())) "r1" "u9" "t2" (.ok ())
      = upvoteReport [sampleReport] "r1" "u9" "t1" (.ok ()) ∧
    "u9" ∉ sampleReport.upvotedBy ∧
    (upvoteReportLocal "r1" "u9" "t1" sampleReport).upvotes = sampleReport.upvotes + 1 :=
  ⟨rfl,
   (c5_upvote_idempotent [sampleReport] "r1" "u9" "t1" "t2" (.ok ()) (.ok ()) sampleReport rfl).1,
   by decide,
   ((c5_upvote_idempotent [sampleReport] "r1" "u9" "t1" "t2" (.ok ()) (.ok ())
      sampleReport rfl).2.2 (by decide)).1⟩

/-- C6: `upvoteReport` is best-effort — a remote vote failure is swallowed
(the result type has no error channel, so nothing propagates to the
caller) and the local bookkeeping runs exactly as it does on remote
success. -/
theorem c6_upvote_best_effort (reports : List Report) (id userId now e : String) :
    upvoteReport reports id userId now (.error e)
      = reports.map (upvoteReportLocal id userId now) ∧
    upvoteReport reports id userId now (.error e)
      = upvoteReport reports id userId now (.ok ()) :=
  ⟨rfl, rfl⟩

/-- C7: `getReportById` returns `none` when the id is absent from the local
collection; when present, a successful comment fetch replaces the report's
comments with the fetched list mapped into the local shape, and a failed
comment fetch returns the local report unchanged. -/
theorem c7_getReportById_cases (reports : List Report) (id e : String)
    (comments : List RemoteComment) (report : Report) :
    (reports.find? (fun r => r.id == id) = none →
      ∀ remote : Except String (List RemoteComment),
        getReportById reports id remote = none) ∧
    (reports.find? (fun r => r.id == id) = some report →
      getReportById reports id (.ok comments)
        = some { report with comments := comments.map transformComment } ∧
      getReportById reports id (.error e) = some report) := by
  constructor
  · intro h remote
    unfold getReportById
    rw [h]
  · intro h
    constructor <;> (unfold getReportById; rw [h])

/-- C7 witness: lookup miss, lookup hit with failed comment fetch, and
lookup hit with successful comment fetch, on the sample collection. -/
theorem c7_getReportById_cases_witness :
    ([sampleReport].find? (fun r => r.id == "zz") = none) ∧
    getReportById [sampleReport] "zz" (.ok []) = none ∧
    ([sampleReport].find? (fun r => r.id == "r1") = some sampleReport) ∧
    getReportById [sampleReport] "r1" (.error "down") = some sampleReport ∧
    getReportById [sampleReport] "r1" (.ok [])
      = some { sampleReport with comments := ([] : List RemoteComment).map transformComment } :=
  ⟨rfl,
   (c7_getReportById_cases [sampleReport] "zz" "down" [] sampleReport).1 rfl (.ok []),
   rfl,
   ((c7_getReportById_cases [sampleReport] "r1" "down" [] sampleReport).2 rfl).2,
   ((c7_getReportById_cases [sampleReport] "r1" "down" [] sampleReport).2 rfl).1⟩

/-- C8: the local-to-remote vocabulary mapping is exactly the spec's table
on every value of the local enumerations: pothole and road_damage map to
road, streetlight to electricity, garbage, flooding and sign_damage to
waste, graffiti and other to other; severity maps identically. -/
theorem c8_vocabulary_mapping :
    reportCategoryToIssueCategory "pothole" = "road" ∧
    reportCategoryToIssueCategory "road_damage" = "road" ∧
    reportCategoryToIssueCategory "streetlight" = "electricity" ∧
    reportCategoryToIssueCategory "garbage" = "waste" ∧
    reportCategoryToIssueCategory "flooding" = "waste" ∧
    reportCategoryToIssueCategory "sign_damage" = "waste" ∧
    reportCategoryToIssueCategory "graffiti" = "other" ∧
    reportCategoryToIssueCategory "other" = "other" ∧
    reportSeverityToPriority "low" = "low" ∧
    reportSeverityToPriority "medium" = "medium" ∧
    reportSeverityToPriority "high" = "high" :=
  ⟨rfl, rfl, rfl, rfl, rfl, rfl, rfl, rfl, rfl, rfl, rfl⟩

/-- C9: `uploadImage` rejects a non-image MIME type, and then an oversized
file, with a validation error that is independent of the storage collaborator
(so no network call can have been made); only a file passing both checks is
handed to the remote storage upload. -/
theorem c9_uploadImage_validation (file : UploadFile)
    (storageUpload : UploadFile → Except String String) :
    (strStartsWith file.mimeType "image/" = false →
      uploadImage file storageUpload
        = .error "Invalid file type. Please upload an image file.") ∧
    (strStartsWith file.mimeType "image/" = true → maxImageSize < file.size →
      uploadImage file storageUpload = .error "File size exceeds 1.5MB limit.") ∧
    (strStartsWith file.mimeType "image/" = true → file.size ≤ maxImageSize →
      uploadImage file storageUpload = storageUpload file) := by
  refine ⟨fun h₁ => ?_, fun h₁ h₂ => ?_, fun h₁ h₂ => ?_⟩
  · simp [uploadImage, h₁]
  · simp [uploadImage, h₁, h₂]
  · simp [uploadImage, h₁, Nat.not_lt.mpr h₂]

/-- C9 witness: a text file is rejected for its type, a 1572865-byte image
for its size, and a 1572864-byte image reaches the storage upload. -/
theorem c9_uploadImage_validation_witness :
    (strStartsWith textFile.mimeType "image/" = false) ∧
    uploadImage textFile (fun f => .ok f.name)
      = .error "Invalid file type. Please upload an image file." ∧
    (strStartsWith hugeImage.mimeType "image/" = true ∧ maxImageSize < hugeImage.size) ∧
    uploadImage hugeImage (fun f => .ok f.name) = .error "File size exceeds 1.5MB limit." ∧
    (strStartsWith okImage.mimeType "image/" = true ∧ okImage.size ≤ maxImageSize) ∧
    uploadImage okImage (fun f => .ok f.name) = .ok "ok.png" :=
  ⟨by decide,
   (c9_uploadImage_validation textFile (fun f => .ok f.name)).1 (by decide),
   ⟨by decide, by decide⟩,
   (c9_uploadImage_validation hugeImage (fun f => .ok f.name)).2.1 (by decide) (by decide),
   ⟨by decide, by decide⟩,
   (c9_uploadImage_validation okImage (fun f => .ok f.name)).2.2 (by decide) (by decide)⟩

/-- C10: a recognized field present in `updates` but falsy — title or
description set to the empty string — is omitted from the remote payload,
yet the local merge still applies it to the matching record (the spread
does not test truthiness) and, after a successful remote call on that
payload, the local collection has changed without the field having been
written remotely. -/
theorem c10_falsy_fields_local_only (reports : List Report) (id now : String)
    (updates : ReportUpdates) (updateIssue : IssueUpdates → Except String Unit)
    (report : Report)
    (ht : updates.title = some "") (hd : updates.description = some "")
    (hok : updateIssue (updateReportPayload updates) = .ok ()) :
    (updateReportPayload updates).title = none ∧
    (updateReportPayload updates).description = none ∧
    (mergeUpdates report updates now).title = "" ∧
    (mergeUpdates report updates now).description = "" ∧
    updateReport reports id updates now updateIssue
      = (reports.map (fun r => if r.id = id then mergeUpdates r updates now else r), .ok ()) := by
  refine ⟨?_, ?_, ?_, ?_, ?_⟩
  · simp [updateReportPayload, truthyString, ht]
  · simp [updateReportPayload, truthyString, hd]
  · simp [mergeUpdates, ht]
  · simp [mergeUpdates, hd]
  · unfold updateReport
    rw [hok]

/-- C10 witness: the empty-string update on the sample collection — omitted
from the payload, applied by the local merge. -/
theorem c10_falsy_fields_local_only_witness :
    emptyStringUpdates.title = some "" ∧
    emptyStringUpdates.description = some "" ∧
    (updateReportPayload emptyStringUpdates).title = none ∧
    (mergeUpdates sampleReport emptyStringUpdates "t2").title = "" ∧
    updateReport [sampleReport] "r1" emptyStringUpdates "t2" (fun _ => .ok ())
      = ([sampleReport].map
          (fun r => if r.id = "r1" then mergeUpdates r emptyStringUpdates "t2" else r), .ok ()) :=
  ⟨rfl, rfl,
   (c10_falsy_fields_local_only [sampleReport] "r1" "t2" emptyStringUpdates (fun _ => .ok ())
      sampleReport rfl rfl rfl).1,
   (c10_falsy_fields_local_only [sampleReport] "r1" "t2" emptyStringUpdates (fun _ => .ok ())
      sampleReport rfl rfl rfl).2.2.1,
   (c10_falsy_fields_local_only [sampleReport] "r1" "t2" emptyStringUpdates (fun _ => .ok ())
      sampleReport rfl rfl rfl).2.2.2.2⟩

end CityFix
